import Mathlib

/-
  Shallow embedding of the LMS backend credential / application-lifecycle core:
  src/controllers/authController.js, src/unnamed/part_000 (instructor application
  controller) and src/models/instructorApplicationModel.js.
  Stateful controller code is embedded as explicit state passing over a DB value;
  fallible paths return Except.
-/

namespace LMS

/-- Email normalization performed by the storage layer on save and lookup
(schema options trim plus lowercase in instructorApplicationModel.js),
embedded character by character. -/
def trimChars (l : List Char) : List Char :=
  ((l.dropWhile Char.isWhitespace).reverse.dropWhile Char.isWhitespace).reverse

def normalizeEmail (e : String) : String := String.mk ((trimChars e.data).map Char.toLower)

/-- Modelled from the spec: the Credential Vault (src/models/userModel.js is not
among the sources; its bcrypt pre-save hook mirrors the one in
instructorApplicationModel.js). A bcrypt hash is one way, so it is embedded
symbolically: the constructor records the hashed plaintext and nothing else
inspects it except verification. -/
inductive HashedSecret
  | hashed (plain : String)
deriving DecidableEq, Repr

/-- Modelled from the spec: Vault.verify — true exactly when the candidate
secret matches the one that was hashed (matchPassword on the user model). -/
def vaultVerify (secret : String) (h : HashedSecret) : Bool :=
  match h with
  | .hashed s => secret = s

/-- Modelled from the spec: the Session Issuer binds identity id and role into
a token (generateToken on the user model). -/
structure Token where
  userId : Nat
  role : String
deriving DecidableEq, Repr

/-- Instructor profile object (instructorApplicationModel.js, profile subdocument). -/
structure Profile where
  bio : String
  expertise : String
  experience : String
  education : String
  linkedinUrl : Option String := none
  githubUrl : Option String := none
  portfolioUrl : Option String := none
deriving DecidableEq, Repr

/-- Identity (User) record: fields written by registerUser / approveApplication /
forgotPassword in the controllers. -/
structure User where
  id : Nat
  name : String
  email : String
  password : HashedSecret
  isAdmin : Bool
  isInstructor : Bool
  role : String
  isTemporaryPassword : Bool
  profile : Option Profile := none
deriving DecidableEq, Repr

/-- Application status enum (instructorApplicationModel.js). -/
inductive AppStatus
  | pending
  | approved
  | rejected
deriving DecidableEq, Repr

/-- InstructorApplication record (instructorApplicationModel.js). -/
structure Application where
  id : Nat
  name : String
  email : String
  password : HashedSecret
  profile : Profile
  status : AppStatus
  approvedBy : Option Nat := none
  approvedAt : Option Nat := none
  rejectedBy : Option Nat := none
  rejectedAt : Option Nat := none
  rejectionReason : Option String := none
  createdAt : Nat := 0
deriving DecidableEq, Repr

/-- The two stores (User collection and InstructorApplication collection) plus
the id counter of the storage layer. -/
structure DB where
  users : List User
  apps : List Application
  nextId : Nat
deriving DecidableEq, Repr

/-- User.findOne with an email filter; the storage layer lookup is an exact
match after normalization. -/
def DB.findUserByEmail (db : DB) (e : String) : Option User :=
  db.users.find? (fun u => u.email = normalizeEmail e)

/-- User.findById. -/
def DB.findUserById (db : DB) (i : Nat) : Option User :=
  db.users.find? (fun u => u.id = i)

/-- InstructorApplication.findOne with an email filter. -/
def DB.findAppByEmail (db : DB) (e : String) : Option Application :=
  db.apps.find? (fun a => a.email = normalizeEmail e)

/-- InstructorApplication.findById. -/
def DB.findAppById (db : DB) (i : Nat) : Option Application :=
  db.apps.find? (fun a => a.id = i)

/-- document.save() on a loaded user: unconditional write-back by id. -/
def DB.updateUser (db : DB) (u : User) : DB :=
  { db with users := db.users.map (fun v => if v.id = u.id then u else v) }

/-- application.save(): unconditional write-back by id — there is no
compare-and-set on the status field in the source. -/
def DB.updateApp (db : DB) (a : Application) : DB :=
  { db with apps := db.apps.map (fun v => if v.id = a.id then a else v) }

/-- Domain error kinds thrown by the controllers, carrying the message of the
corresponding throw site. -/
inductive Err
  | conflict (msg : String)
  | notFound (msg : String)
  | invalidState (msg : String)
  | unauthorized (msg : String)
  | deliveryError (msg : String)
  | createFailed
deriving DecidableEq, Repr

instance {ε α : Type} [DecidableEq ε] [DecidableEq α] : DecidableEq (Except ε α) := fun a b =>
  match a, b with
  | Except.ok x, Except.ok y =>
    if h : x = y then isTrue (by rw [h]) else isFalse (by intro hc; cases hc; exact h rfl)
  | Except.error x, Except.error y =>
    if h : x = y then isTrue (by rw [h]) else isFalse (by intro hc; cases hc; exact h rfl)
  | Except.ok _, Except.error _ => isFalse (by intro hc; cases hc)
  | Except.error _, Except.ok _ => isFalse (by intro hc; cases hc)

/-- Result of an engine operation: response value or error, the post state, and
the console error log written by a swallowed notification failure. -/
structure OpOut (α : Type) where
  result : Except Err α
  db : DB
  log : List String
deriving Repr, DecidableEq

/-- The try/catch around transporter.sendMail: a failed delivery only produces
a console.error entry. -/
def mailLog (mailOk : Bool) (msg : String) : List String :=
  if mailOk then [] else [msg]

/-- submitApplication (src/unnamed/part_000, lines 21-97): duplicate checks
against both stores, then InstructorApplication.create with status pending
(the pre-save hook hashes the secret and normalizes the email), then a
best-effort admin notification whose failure is caught and logged. Returns
the new application id. The mailOk flag is the outcome of the sendMail call;
now is the creation timestamp the store records. -/
def submitApplication (name email password : String) (profile : Profile)
    (mailOk : Bool) (now : Nat) (db : DB) : OpOut Nat :=
  match db.findUserByEmail email with
  | some _ => ⟨Except.error (Err.conflict "User with this email already exists"), db, []⟩
  | none =>
    match db.findAppByEmail email with
    | some _ => ⟨Except.error (Err.conflict "Application with this email already exists"), db, []⟩
    | none =>
      let app : Application :=
        { id := db.nextId
          name := name
          email := normalizeEmail email
          password := HashedSecret.hashed password
          profile := profile
          status := AppStatus.pending
          createdAt := now }
      let db1 : DB := { db with apps := app :: db.apps, nextId := db.nextId + 1 }
      ⟨Except.ok app.id, db1, mailLog mailOk "Failed to send admin notification email"⟩

/-- Public fields of the created identity returned by approveApplication. -/
structure UserSummary where
  id : Nat
  name : String
  email : String
  role : String
deriving DecidableEq, Repr

/-- Load-and-guard phase of approveApplication (lines 155-165): findById, then
NotFound / InvalidState guards read against the store at load time. -/
def approveLoad (appId : Nat) (db : DB) : Except Err Application :=
  match db.findAppById appId with
  | none => Except.error (Err.notFound "Application not found")
  | some a =>
    if a.status ≠ AppStatus.pending then
      Except.error (Err.invalidState "Application has already been processed")
    else Except.ok a

/-- Mutation phase of approveApplication (lines 168-181): User.create from the
application (createOk is whether the identity store create succeeds; a raise
propagates before the application is touched), then an unconditional save of
the loaded document with status approved and the audit fields. -/
def approveCommit (a : Application) (approverId now : Nat) (createOk : Bool)
    (db : DB) : Except Err UserSummary × DB :=
  if createOk then
    let user : User :=
      { id := db.nextId
        name := a.name
        email := a.email
        password := a.password
        isAdmin := false
        isInstructor := true
        role := "instructor"
        isTemporaryPassword := false
        profile := some a.profile }
    let db1 : DB := { db with users := user :: db.users, nextId := db.nextId + 1 }
    let a1 : Application :=
      { a with status := AppStatus.approved, approvedBy := some approverId, approvedAt := some now }
    (Except.ok ⟨user.id, user.name, user.email, user.role⟩, db1.updateApp a1)
  else
    (Except.error Err.createFailed, db)

/-- approveApplication (lines 154-218): guards, identity creation plus status
update, then a best-effort approval notification whose failure is caught and
logged. -/
def approveApplication (appId approverId now : Nat) (createOk mailOk : Bool)
    (db : DB) : OpOut UserSummary :=
  match approveLoad appId db with
  | Except.error e => ⟨Except.error e, db, []⟩
  | Except.ok a =>
    match approveCommit a approverId now createOk db with
    | (Except.error e, db1) => ⟨Except.error e, db1, []⟩
    | (Except.ok u, db1) => ⟨Except.ok u, db1, mailLog mailOk "Failed to send approval email"⟩

/-- Load-and-guard phase of rejectApplication (lines 226-236): identical guards
to approveLoad. -/
def rejectLoad (appId : Nat) (db : DB) : Except Err Application :=
  match db.findAppById appId with
  | none => Except.error (Err.notFound "Application not found")
  | some a =>
    if a.status ≠ AppStatus.pending then
      Except.error (Err.invalidState "Application has already been processed")
    else Except.ok a

/-- Mutation phase of rejectApplication (lines 241-245): unconditional save of
the loaded document with status rejected and the audit fields. -/
def rejectCommit (a : Application) (rejecterId now : Nat) (reason : Option String)
    (db : DB) : Except Err String × DB :=
  let a1 : Application :=
    { a with status := AppStatus.rejected, rejectedBy := some rejecterId,
             rejectedAt := some now, rejectionReason := reason }
  (Except.ok "Application rejected successfully", db.updateApp a1)

/-- rejectApplication (lines 225-274): guards, status update, then a
best-effort rejection notification whose failure is caught and logged. -/
def rejectApplication (appId rejecterId now : Nat) (reason : Option String)
    (mailOk : Bool) (db : DB) : OpOut String :=
  match rejectLoad appId db with
  | Except.error e => ⟨Except.error e, db, []⟩
  | Except.ok a =>
    match rejectCommit a rejecterId now reason db with
    | (r, db1) => ⟨r, db1, mailLog mailOk "Failed to send rejection email"⟩

/-- Projection of an application as returned to admins: select excludes the
password path, embedded as an optional secret field that the projection leaves
empty. -/
structure AppProjection where
  id : Nat
  name : String
  email : String
  password : Option HashedSecret
  profile : Profile
  status : AppStatus
  approvedBy : Option Nat
  approvedAt : Option Nat
  rejectedBy : Option Nat
  rejectedAt : Option Nat
  rejectionReason : Option String
  createdAt : Nat
deriving DecidableEq, Repr

/-- The select of the password-free projection applied by getApplications and
getApplicationById. -/
def Application.project (a : Application) : AppProjection :=
  { id := a.id
    name := a.name
    email := a.email
    password := none
    profile := a.profile
    status := a.status
    approvedBy := a.approvedBy
    approvedAt := a.approvedAt
    rejectedBy := a.rejectedBy
    rejectedAt := a.rejectedAt
    rejectionReason := a.rejectionReason
    createdAt := a.createdAt }

/-- Insertion of one element into a list already sorted by createdAt descending. -/
def insertByCreatedDesc (a : Application) : List Application → List Application
  | [] => [a]
  | b :: t => if b.createdAt ≤ a.createdAt then a :: b :: t else b :: insertByCreatedDesc a t

/-- sort by createdAt: -1 in getApplications. -/
def sortByCreatedDesc : List Application → List Application
  | [] => []
  | a :: t => insertByCreatedDesc a (sortByCreatedDesc t)

/-- getApplications (lines 104-131): optional status filter, sort by creation
time descending, skip/limit pagination, and the password-excluding select. -/
def getApplications (statusFilter : Option AppStatus) (page limit : Nat)
    (db : DB) : List AppProjection :=
  let filtered := db.apps.filter (fun a =>
    match statusFilter with
    | none => true
    | some s => a.status = s)
  let sorted := sortByCreatedDesc filtered
  (((sorted.drop ((page - 1) * limit)).take limit).map Application.project)

/-- getApplicationById (lines 138-147): findById with the password-excluding
select, NotFound when absent. -/
def getApplicationById (appId : Nat) (db : DB) : Except Err AppProjection :=
  match db.findAppById appId with
  | none => Except.error (Err.notFound "Application not found")
  | some a => Except.ok a.project

/-- Modelled from the spec: generateToken on the missing user model binds the
identity id and role (Session Issuer contract). -/
def generateToken (u : User) : Token :=
  ⟨u.id, u.role⟩

/-- Login response body (authController.js lines 96-105). -/
structure LoginResponse where
  id : Nat
  name : String
  email : String
  isAdmin : Bool
  isInstructor : Bool
  role : String
  token : Token
  requirePasswordChange : Bool
deriving DecidableEq, Repr

/-- loginUser (authController.js lines 75-112). The isTemporaryPassword
argument is the optional boolean field of the request body; the source sets
requirePasswordChange from it (isTemporaryPassword or false), not from the
stored user record. Both the unknown-email and failed-verification paths fall
into the same else branch with one identical error. -/
def loginUser (email password : String) (isTemporaryPassword : Option Bool)
    (db : DB) : Except Err LoginResponse :=
  match db.findUserByEmail email with
  | some user =>
    if vaultVerify password user.password then
      Except.ok
        { id := user.id
          name := user.name
          email := user.email
          isAdmin := user.isAdmin
          isInstructor := user.isInstructor
          role := user.role
          token := generateToken user
          requirePasswordChange := (isTemporaryPassword.getD false) }
    else Except.error (Err.unauthorized "Invalid email or password")
  | none => Except.error (Err.unauthorized "Invalid email or password")

/-- forgotPassword (authController.js lines 119-172): NotFound when no user has
the email; otherwise the temporary secret (tempPassword stands for the random
generation) is hashed by the pre-save hook and saved with the temporary flag
set, and only then is delivery attempted; a delivery failure is rethrown as a
500 after the save. -/
def forgotPassword (email tempPassword : String) (mailOk : Bool)
    (db : DB) : Except Err String × DB :=
  match db.findUserByEmail email with
  | none => (Except.error (Err.notFound "User not found with this email"), db)
  | some user =>
    let user1 : User :=
      { user with password := HashedSecret.hashed tempPassword, isTemporaryPassword := true }
    let db1 := db.updateUser user1
    if mailOk then
      (Except.ok "Temporary password sent to your email", db1)
    else
      (Except.error (Err.deliveryError "Failed to send email. Please try again later."), db1)

/-
  Concrete fixtures used to instantiate the theorems below on closed inputs.
-/

/-- A well-formed instructor profile. -/
def sampleProfile : Profile :=
  { bio := "Systems teacher", expertise := "databases", experience := "3-5 years",
    education := "MSc" }

/-- A user whose stored secret was rotated by forgotPassword: the stored hash is
the temporary secret and the stored temporary flag is set. -/
def adaUser : User :=
  { id := 1, name := "Ada", email := "ada@x.com", password := HashedSecret.hashed "tmp12345",
    isAdmin := false, isInstructor := false, role := "student", isTemporaryPassword := true }

/-- Store holding only adaUser. -/
def adaDb : DB := { users := [adaUser], apps := [], nextId := 2 }

/-- A pending instructor application. -/
def pendingApp : Application :=
  { id := 1, name := "Bea", email := "bea@x.com", password := HashedSecret.hashed "secret1",
    profile := sampleProfile, status := AppStatus.pending, createdAt := 3 }

/-- Store holding only pendingApp. -/
def pendingDb : DB := { users := [], apps := [pendingApp], nextId := 2 }

/-- A user with a non-temporary stored secret, for login fixtures. -/
def cyUser : User :=
  { id := 3, name := "Cy", email := "cy@x.com", password := HashedSecret.hashed "pw123456",
    isAdmin := false, isInstructor := false, role := "student", isTemporaryPassword := false }

/-- Store holding only cyUser. -/
def cyDb : DB := { users := [cyUser], apps := [], nextId := 4 }

/-- An empty store. -/
def emptyDb : DB := { users := [], apps := [], nextId := 1 }

/-
  General lemmas about the storage layer.
-/

/-- After the write-back replaces every element carrying a given id by a record
with that id, looking the id up finds exactly the written record, provided some
element with the id was stored. -/
theorem find?_replace {α : Type} (idf : α → Nat) (l : List α) (b : α) (i : Nat)
    (hmem : ∃ v ∈ l, idf v = i) (hb : idf b = i) :
    (l.map (fun v => if idf v = idf b then b else v)).find? (fun v => idf v = i) = some b := by
  induction l with
  | nil => simp at hmem
  | cons v t ih =>
    obtain ⟨w, hw, hwi⟩ := hmem
    by_cases hv : idf v = i
    · have hvb : idf v = idf b := by rw [hv, hb]
      simp only [List.map_cons, if_pos hvb]
      exact List.find?_cons_of_pos _ (by simp [hb])
    · have hvb : ¬ idf v = idf b := by rw [hb]; exact hv
      simp only [List.map_cons, if_neg hvb]
      rw [List.find?_cons_of_neg _ (by simp [hv])]
      apply ih
      rcases List.mem_cons.mp hw with hwv | hwt
      · exact absurd (hwv ▸ hwi) hv
      · exact ⟨w, hwt, hwi⟩

/-- application.save() followed by findById returns the saved document. -/
theorem findAppById_updateApp (db : DB) (a1 : Application) (i : Nat)
    (hmem : ∃ v ∈ db.apps, v.id = i) (hid : a1.id = i) :
    (db.updateApp a1).findAppById i = some a1 := by
  unfold DB.updateApp DB.findAppById
  exact find?_replace Application.id db.apps a1 i hmem hid

/-- A write-back keeps an element with the written id present. -/
theorem exists_id_updateApp (db : DB) (b : Application) (i : Nat)
    (hmem : ∃ v ∈ db.apps, v.id = i) (hb : b.id = i) :
    ∃ v ∈ (db.updateApp b).apps, v.id = i := by
  have hfind := findAppById_updateApp db b i hmem hb
  unfold DB.findAppById at hfind
  exact ⟨b, List.mem_of_find?_eq_some hfind, hb⟩

/-- user.save() followed by findById returns the saved document. -/
theorem findUserById_updateUser (db : DB) (u1 : User) (i : Nat)
    (hmem : ∃ v ∈ db.users, v.id = i) (hid : u1.id = i) :
    (db.updateUser u1).findUserById i = some u1 := by
  unfold DB.updateUser DB.findUserById
  exact find?_replace User.id db.users u1 i hmem hid

/-- A find?-by-id hit yields membership with that id. -/
theorem exists_of_findAppById (db : DB) (i : Nat) (a : Application)
    (h : db.findAppById i = some a) : ∃ v ∈ db.apps, v.id = i := by
  refine ⟨a, List.mem_of_find?_eq_some h, ?_⟩
  have := List.find?_some h
  exact of_decide_eq_true this

/-- The write-back of an application record does not touch the user store. -/
theorem users_updateApp (db : DB) (a : Application) : (db.updateApp a).users = db.users := rfl

/-- The write-back of a user record does not touch the application store. -/
theorem apps_updateUser (db : DB) (u : User) : (db.updateUser u).apps = db.apps := rfl

/-- A find?-by-id hit carries the looked-up id. -/
theorem findAppById_some_id (db : DB) (i : Nat) (a : Application)
    (h : db.findAppById i = some a) : a.id = i := by
  unfold DB.findAppById at h
  have hp := List.find?_some h
  simpa using hp

/-- The identity created by approving an application a. -/
def promotedUser (a : Application) (freshId : Nat) : User :=
  { id := freshId, name := a.name, email := a.email, password := a.password,
    isAdmin := false, isInstructor := true, role := "instructor",
    isTemporaryPassword := false, profile := some a.profile }

/-- The application document as saved by a successful approve. -/
def approvedDoc (a : Application) (approverId now : Nat) : Application :=
  { a with status := AppStatus.approved, approvedBy := some approverId, approvedAt := some now }

/-- The application document as saved by a reject. -/
def rejectedDoc (a : Application) (rejecterId now : Nat) (reason : Option String) : Application :=
  { a with status := AppStatus.rejected, rejectedBy := some rejecterId,
           rejectedAt := some now, rejectionReason := reason }

/-- Approving a loaded pending application with a succeeding identity create
returns the created identity summary and commits both writes. -/
theorem approve_pending_eq (db : DB) (appId approverId now : Nat) (mailOk : Bool)
    (a : Application) (hload : db.findAppById appId = some a)
    (hpending : a.status = AppStatus.pending) :
    approveApplication appId approverId now true mailOk db =
      ⟨Except.ok ⟨db.nextId, a.name, a.email, "instructor"⟩,
       DB.updateApp
         { db with users := promotedUser a db.nextId :: db.users, nextId := db.nextId + 1 }
         (approvedDoc a approverId now),
       mailLog mailOk "Failed to send approval email"⟩ := by
  unfold approveApplication approveLoad approveCommit
  rw [hload]
  simp [hpending, promotedUser, approvedDoc]

/-- Rejecting a loaded pending application returns the confirmation and commits
the status write. -/
theorem reject_pending_eq (db : DB) (appId rejecterId now : Nat) (reason : Option String)
    (mailOk : Bool) (a : Application) (hload : db.findAppById appId = some a)
    (hpending : a.status = AppStatus.pending) :
    rejectApplication appId rejecterId now reason mailOk db =
      ⟨Except.ok "Application rejected successfully",
       DB.updateApp db (rejectedDoc a rejecterId now reason),
       mailLog mailOk "Failed to send rejection email"⟩ := by
  unfold rejectApplication rejectLoad rejectCommit
  rw [hload]
  simp [hpending, rejectedDoc]

/-- Approving an application whose loaded status is not pending fails with
InvalidState and changes nothing. -/
theorem approve_not_pending_eq (db : DB) (appId approverId now : Nat)
    (createOk mailOk : Bool) (a : Application) (hload : db.findAppById appId = some a)
    (hnp : a.status ≠ AppStatus.pending) :
    approveApplication appId approverId now createOk mailOk db =
      ⟨Except.error (Err.invalidState "Application has already been processed"), db, []⟩ := by
  unfold approveApplication approveLoad
  rw [hload]
  simp [hnp]

/-- Rejecting an application whose loaded status is not pending fails with
InvalidState and changes nothing. -/
theorem reject_not_pending_eq (db : DB) (appId rejecterId now : Nat)
    (reason : Option String) (mailOk : Bool) (a : Application)
    (hload : db.findAppById appId = some a) (hnp : a.status ≠ AppStatus.pending) :
    rejectApplication appId rejecterId now reason mailOk db =
      ⟨Except.error (Err.invalidState "Application has already been processed"), db, []⟩ := by
  unfold rejectApplication rejectLoad
  rw [hload]
  simp [hnp]

/-- After a successful approve, looking up the application finds the saved
approved document. -/
theorem approve_pending_find (db : DB) (appId approverId now : Nat) (mailOk : Bool)
    (a : Application) (hload : db.findAppById appId = some a)
    (hpending : a.status = AppStatus.pending) :
    (approveApplication appId approverId now true mailOk db).db.findAppById appId
      = some (approvedDoc a approverId now) := by
  rw [approve_pending_eq db appId approverId now mailOk a hload hpending]
  apply findAppById_updateApp
  · exact exists_of_findAppById db appId a hload
  · exact findAppById_some_id db appId a hload

/-- After a reject, looking up the application finds the saved rejected
document. -/
theorem reject_pending_find (db : DB) (appId rejecterId now : Nat) (reason : Option String)
    (mailOk : Bool) (a : Application) (hload : db.findAppById appId = some a)
    (hpending : a.status = AppStatus.pending) :
    (rejectApplication appId rejecterId now reason mailOk db).db.findAppById appId
      = some (rejectedDoc a rejecterId now reason) := by
  rw [reject_pending_eq db appId rejecterId now reason mailOk a hload hpending]
  apply findAppById_updateApp
  · exact exists_of_findAppById db appId a hload
  · exact findAppById_some_id db appId a hload

/-- C1: the claim fails on the code. adaDb stores a user whose temporary-secret
flag is true (as forgotPassword leaves it), yet a successful login that sends
only email and password reports requirePasswordChange = false: loginUser reads
the isTemporaryPassword field of the request body (defaulting to false), never
the stored flag, so the caller controls the reported value — a body flag of
true makes even a non-temporary account report true. -/
theorem c1_login_flag_comes_from_request_body :
    adaUser.isTemporaryPassword = true ∧
    (loginUser "ada@x.com" "tmp12345" none adaDb).map (fun r => r.requirePasswordChange)
      = Except.ok false ∧
    (loginUser "ada@x.com" "tmp12345" (some true) adaDb).map (fun r => r.requirePasswordChange)
      = Except.ok true ∧
    cyUser.isTemporaryPassword = false ∧
    (loginUser "cy@x.com" "pw123456" (some true) cyDb).map (fun r => r.requirePasswordChange)
      = Except.ok true := by
  decide

/-- C2: if the identity store create raises while approving a loaded pending
application, approveApplication surfaces the failure and returns the store
exactly as it was: the application keeps its pending record and no audit
fields are written. -/
theorem c2_approve_create_failure_leaves_pending (db : DB) (appId approverId now : Nat)
    (mailOk : Bool) (a : Application)
    (hload : db.findAppById appId = some a) (hpending : a.status = AppStatus.pending) :
    approveApplication appId approverId now false mailOk db
      = ⟨Except.error Err.createFailed, db, []⟩ := by
  unfold approveApplication approveLoad approveCommit
  rw [hload]
  simp [hpending]

/-- Witness for C2 on a concrete store with one pending application. -/
theorem c2_witness :
    approveApplication 1 9 5 false true pendingDb
      = ⟨Except.error Err.createFailed, pendingDb, []⟩ :=
  c2_approve_create_failure_leaves_pending pendingDb 1 9 5 true pendingApp
    (by decide) (by decide)

/-- C3: status transitions are monotonic. A loaded non-pending application
makes both Approve and Reject fail with InvalidState and change nothing; from
pending, a successful Approve adds exactly one identity and afterwards any
second Approve or Reject on the same id fails with InvalidState leaving the
store unchanged, and a successful Reject adds no identity and likewise makes
any second Approve or Reject fail with InvalidState. -/
theorem c3_transitions_monotonic (db : DB) (appId x y now1 now2 : Nat)
    (cOk m1 m2 : Bool) (r1 r2 : Option String) (a : Application)
    (hload : db.findAppById appId = some a) :
    (a.status ≠ AppStatus.pending →
      approveApplication appId x now1 cOk m1 db
          = ⟨Except.error (Err.invalidState "Application has already been processed"), db, []⟩ ∧
      rejectApplication appId x now1 r1 m1 db
          = ⟨Except.error (Err.invalidState "Application has already been processed"), db, []⟩) ∧
    (a.status = AppStatus.pending →
      ((approveApplication appId x now1 true m1 db).result
          = Except.ok ⟨db.nextId, a.name, a.email, "instructor"⟩ ∧
       (approveApplication appId x now1 true m1 db).db.users
          = promotedUser a db.nextId :: db.users ∧
       approveApplication appId y now2 cOk m2 (approveApplication appId x now1 true m1 db).db
          = ⟨Except.error (Err.invalidState "Application has already been processed"),
             (approveApplication appId x now1 true m1 db).db, []⟩ ∧
       rejectApplication appId y now2 r2 m2 (approveApplication appId x now1 true m1 db).db
          = ⟨Except.error (Err.invalidState "Application has already been processed"),
             (approveApplication appId x now1 true m1 db).db, []⟩) ∧
      ((rejectApplication appId x now1 r1 m1 db).result
          = Except.ok "Application rejected successfully" ∧
       (rejectApplication appId x now1 r1 m1 db).db.users = db.users ∧
       approveApplication appId y now2 cOk m2 (rejectApplication appId x now1 r1 m1 db).db
          = ⟨Except.error (Err.invalidState "Application has already been processed"),
             (rejectApplication appId x now1 r1 m1 db).db, []⟩ ∧
       rejectApplication appId y now2 r2 m2 (rejectApplication appId x now1 r1 m1 db).db
          = ⟨Except.error (Err.invalidState "Application has already been processed"),
             (rejectApplication appId x now1 r1 m1 db).db, []⟩)) := by
  constructor
  · intro hnp
    exact ⟨approve_not_pending_eq db appId x now1 cOk m1 a hload hnp,
           reject_not_pending_eq db appId x now1 r1 m1 a hload hnp⟩
  · intro hp
    constructor
    · have he := approve_pending_eq db appId x now1 m1 a hload hp
      have hfind := approve_pending_find db appId x now1 m1 a hload hp
      refine ⟨?_, ?_, ?_, ?_⟩
      · rw [he]
      · rw [he]; rfl
      · exact approve_not_pending_eq _ appId y now2 cOk m2 _ hfind (by simp [approvedDoc])
      · exact reject_not_pending_eq _ appId y now2 r2 m2 _ hfind (by simp [approvedDoc])
    · have he := reject_pending_eq db appId x now1 r1 m1 a hload hp
      have hfind := reject_pending_find db appId x now1 r1 m1 a hload hp
      refine ⟨?_, ?_, ?_, ?_⟩
      · rw [he]
      · rw [he]; rfl
      · exact approve_not_pending_eq _ appId y now2 cOk m2 _ hfind (by simp [rejectedDoc])
      · exact reject_not_pending_eq _ appId y now2 r2 m2 _ hfind (by simp [rejectedDoc])

/-- Witness for C3 on a concrete store with one pending application: the first
approve succeeds and creates the identity, the second approve fails with
InvalidState without touching the store. -/
theorem c3_witness :
    (approveApplication 1 9 11 true true pendingDb).result
        = Except.ok ⟨2, "Bea", "bea@x.com", "instructor"⟩ ∧
    approveApplication 1 9 12 true true (approveApplication 1 9 11 true true pendingDb).db
        = ⟨Except.error (Err.invalidState "Application has already been processed"),
           (approveApplication 1 9 11 true true pendingDb).db, []⟩ :=
  ⟨(((c3_transitions_monotonic pendingDb 1 9 9 11 12 true true true none none pendingApp
        (by decide)).2 (by decide)).1).1,
   (((c3_transitions_monotonic pendingDb 1 9 9 11 12 true true true none none pendingApp
        (by decide)).2 (by decide)).1).2.2.1⟩

/-- C4: Submit fails with Conflict and creates nothing when the email already
lives in either store, and otherwise persists exactly one new pending
application carrying the normalized email and returns its id. -/
theorem c4_submit_conflict_or_pending (name email pw : String) (profile : Profile)
    (mailOk : Bool) (now : Nat) (db : DB) :
    ((db.findUserByEmail email).isSome = true ∨ (db.findAppByEmail email).isSome = true →
       ∃ msg, submitApplication name email pw profile mailOk now db
         = ⟨Except.error (Err.conflict msg), db, []⟩) ∧
    (db.findUserByEmail email = none → db.findAppByEmail email = none →
       submitApplication name email pw profile mailOk now db =
         ⟨Except.ok db.nextId,
          { db with
            apps :=
              { id := db.nextId, name := name, email := normalizeEmail email,
                password := HashedSecret.hashed pw, profile := profile,
                status := AppStatus.pending, createdAt := now } :: db.apps,
            nextId := db.nextId + 1 },
          mailLog mailOk "Failed to send admin notification email"⟩) := by
  constructor
  · intro hsome
    cases hu : db.findUserByEmail email with
    | some u =>
      refine ⟨"User with this email already exists", ?_⟩
      unfold submitApplication
      rw [hu]
    | none =>
      cases ha : db.findAppByEmail email with
      | some a0 =>
        refine ⟨"Application with this email already exists", ?_⟩
        unfold submitApplication
        rw [hu, ha]
      | none =>
        rw [hu, ha] at hsome
        simp at hsome
  · intro hu ha
    unfold submitApplication
    rw [hu, ha]

/-- Witness for C4: a conflicting submit against a store already holding the
email, and a clean submit against the empty store. -/
theorem c4_witness :
    (∃ msg, submitApplication "Eve" "ada@x.com" "pw1234" sampleProfile true 7 adaDb
        = ⟨Except.error (Err.conflict msg), adaDb, []⟩) ∧
    submitApplication "Eve" "eve@x.com" "pw1234" sampleProfile true 7 emptyDb =
      ⟨Except.ok 1,
       { emptyDb with
         apps :=
           [{ id := 1, name := "Eve", email := normalizeEmail "eve@x.com",
              password := HashedSecret.hashed "pw1234", profile := sampleProfile,
              status := AppStatus.pending, createdAt := 7 }],
         nextId := 2 },
       mailLog true "Failed to send admin notification email"⟩ :=
  ⟨(c4_submit_conflict_or_pending "Eve" "ada@x.com" "pw1234" sampleProfile true 7 adaDb).1
      (Or.inl (by decide)),
   (c4_submit_conflict_or_pending "Eve" "eve@x.com" "pw1234" sampleProfile true 7 emptyDb).2
      (by decide) (by decide)⟩

/-- The user found by email is stored. -/
theorem user_mem_of_findUserByEmail (db : DB) (e : String) (u : User)
    (h : db.findUserByEmail e = some u) : u ∈ db.users := by
  unfold DB.findUserByEmail at h
  exact List.mem_of_find?_eq_some h

/-- C5: ForgotSecret on an unknown email fails with NotFound and changes
nothing; on a stored identity it saves the hash of the temporary secret with
the temporary flag set before attempting delivery, succeeds when delivery
succeeds, and surfaces a DeliveryError when delivery fails. -/
theorem c5_forgot_secret (db : DB) (email temp : String) (mailOk : Bool) :
    (db.findUserByEmail email = none →
      forgotPassword email temp mailOk db
        = (Except.error (Err.notFound "User not found with this email"), db)) ∧
    (∀ u, db.findUserByEmail email = some u →
      (forgotPassword email temp false db).1
          = Except.error (Err.deliveryError "Failed to send email. Please try again later.") ∧
      (forgotPassword email temp true db).1 = Except.ok "Temporary password sent to your email" ∧
      (forgotPassword email temp mailOk db).2.findUserById u.id
          = some { u with password := HashedSecret.hashed temp, isTemporaryPassword := true }) := by
  constructor
  · intro hnone
    unfold forgotPassword
    rw [hnone]
  · intro u hu
    refine ⟨?_, ?_, ?_⟩
    · unfold forgotPassword
      rw [hu]
      rfl
    · unfold forgotPassword
      rw [hu]
      rfl
    · have hsave :
          (db.updateUser
            { u with password := HashedSecret.hashed temp, isTemporaryPassword := true
              }).findUserById u.id
            = some { u with password := HashedSecret.hashed temp, isTemporaryPassword := true } := by
        apply findUserById_updateUser
        · exact ⟨u, user_mem_of_findUserByEmail db email u hu, rfl⟩
        · rfl
      unfold forgotPassword
      rw [hu]
      cases mailOk with
      | true => exact hsave
      | false => exact hsave

/-- Witness for C5: the NotFound path on the empty store and the rotation path
on a store holding one identity. -/
theorem c5_witness :
    forgotPassword "ghost@x.com" "tmp00000" true emptyDb
        = (Except.error (Err.notFound "User not found with this email"), emptyDb) ∧
    (forgotPassword "cy@x.com" "tmp00000" false cyDb).1
        = Except.error (Err.deliveryError "Failed to send email. Please try again later.") ∧
    (forgotPassword "cy@x.com" "tmp00000" false cyDb).2.findUserById 3
        = some { cyUser with password := HashedSecret.hashed "tmp00000", isTemporaryPassword := true } :=
  ⟨(c5_forgot_secret emptyDb "ghost@x.com" "tmp00000" true).1 (by decide),
   ((c5_forgot_secret cyDb "cy@x.com" "tmp00000" false).2 cyUser (by decide)).1,
   ((c5_forgot_secret cyDb "cy@x.com" "tmp00000" false).2 cyUser (by decide)).2.2⟩

/-- C6: the notification outcome never changes the response or the committed
state of Submit, Approve or Reject, and whenever one of them succeeds with a
failed delivery the failure shows up in the log. -/
theorem c6_notification_failure_never_escalates (name email pw : String) (profile : Profile)
    (now appId x : Nat) (cOk : Bool) (reason : Option String) (db : DB) (m1 m2 : Bool) :
    ((submitApplication name email pw profile m1 now db).result
        = (submitApplication name email pw profile m2 now db).result ∧
     (submitApplication name email pw profile m1 now db).db
        = (submitApplication name email pw profile m2 now db).db) ∧
    ((approveApplication appId x now cOk m1 db).result
        = (approveApplication appId x now cOk m2 db).result ∧
     (approveApplication appId x now cOk m1 db).db
        = (approveApplication appId x now cOk m2 db).db) ∧
    ((rejectApplication appId x now reason m1 db).result
        = (rejectApplication appId x now reason m2 db).result ∧
     (rejectApplication appId x now reason m1 db).db
        = (rejectApplication appId x now reason m2 db).db) ∧
    (∀ v, (submitApplication name email pw profile false now db).result = Except.ok v →
        (submitApplication name email pw profile false now db).log
          = ["Failed to send admin notification email"]) ∧
    (∀ v, (approveApplication appId x now cOk false db).result = Except.ok v →
        (approveApplication appId x now cOk false db).log
          = ["Failed to send approval email"]) ∧
    (∀ v, (rejectApplication appId x now reason false db).result = Except.ok v →
        (rejectApplication appId x now reason false db).log
          = ["Failed to send rejection email"]) := by
  refine ⟨?_, ?_, ?_, ?_, ?_, ?_⟩
  · unfold submitApplication
    cases db.findUserByEmail email with
    | some u => exact ⟨rfl, rfl⟩
    | none =>
      cases db.findAppByEmail email with
      | some a0 => exact ⟨rfl, rfl⟩
      | none => exact ⟨rfl, rfl⟩
  · unfold approveApplication
    cases approveLoad appId db with
    | error e => exact ⟨rfl, rfl⟩
    | ok a =>
      dsimp only
      cases approveCommit a x now cOk db with
      | mk r db1 =>
        cases r with
        | error e => exact ⟨rfl, rfl⟩
        | ok u => exact ⟨rfl, rfl⟩
  · unfold rejectApplication
    cases rejectLoad appId db with
    | error e => exact ⟨rfl, rfl⟩
    | ok a =>
      dsimp only
      cases rejectCommit a x now reason db with
      | mk r db1 => exact ⟨rfl, rfl⟩
  · intro v hv
    unfold submitApplication at hv ⊢
    cases hu : db.findUserByEmail email with
    | some u => rw [hu] at hv; simp at hv
    | none =>
      rw [hu] at hv
      cases ha : db.findAppByEmail email with
      | some a0 => rw [ha] at hv; simp at hv
      | none => rfl
  · intro v hv
    unfold approveApplication at hv ⊢
    cases hl : approveLoad appId db with
    | error e => rw [hl] at hv; simp at hv
    | ok a =>
      rw [hl] at hv
      dsimp only at hv ⊢
      cases hc : approveCommit a x now cOk db with
      | mk r db1 =>
        rw [hc] at hv
        cases r with
        | error e => simp at hv
        | ok u => rfl
  · intro v hv
    unfold rejectApplication at hv ⊢
    cases hl : rejectLoad appId db with
    | error e => rw [hl] at hv; simp at hv
    | ok a =>
      rw [hl] at hv
      dsimp only at hv ⊢
      cases hc : rejectCommit a x now reason db with
      | mk r db1 => rfl

/-- Witness for C6: on the concrete pending store the three operations return
the same response and state for delivered and failed notifications, and the
successful reject with failed delivery logs the failure. -/
theorem c6_witness :
    (submitApplication "Eve" "eve@x.com" "pw1234" sampleProfile true 7 pendingDb).result
        = (submitApplication "Eve" "eve@x.com" "pw1234" sampleProfile false 7 pendingDb).result ∧
    (rejectApplication 1 9 21 (some "weak") false pendingDb).log
        = ["Failed to send rejection email"] :=
  ⟨(c6_notification_failure_never_escalates "Eve" "eve@x.com" "pw1234" sampleProfile
      7 1 9 true (some "weak") pendingDb true false).1.1,
   (c6_notification_failure_never_escalates "Eve" "eve@x.com" "pw1234" sampleProfile
      7 1 9 true (some "weak") pendingDb true false).2.2.2.2.2
      "Application rejected successfully" (by decide)⟩

/-- C7: the two failing login shapes — unknown email, and known email with a
secret the vault rejects — produce one and the same Unauthorized error with
one and the same message. -/
theorem c7_login_error_indistinguishable (db : DB) (e1 p1 e2 p2 : String)
    (t1 t2 : Option Bool) (u : User)
    (h1 : db.findUserByEmail e1 = none)
    (h2 : db.findUserByEmail e2 = some u) (hv : vaultVerify p2 u.password = false) :
    loginUser e1 p1 t1 db = Except.error (Err.unauthorized "Invalid email or password") ∧
    loginUser e2 p2 t2 db = loginUser e1 p1 t1 db := by
  have hA : loginUser e1 p1 t1 db
      = Except.error (Err.unauthorized "Invalid email or password") := by
    unfold loginUser
    rw [h1]
  have hB : loginUser e2 p2 t2 db
      = Except.error (Err.unauthorized "Invalid email or password") := by
    unfold loginUser
    rw [h2]
    dsimp only
    rw [hv]
    rfl
  exact ⟨hA, by rw [hA, hB]⟩

/-- Witness for C7: unknown email versus wrong secret against the concrete
store holding one identity. -/
theorem c7_witness :
    loginUser "ghost@x.com" "whatever" none cyDb
        = Except.error (Err.unauthorized "Invalid email or password") ∧
    loginUser "cy@x.com" "wrongpw" none cyDb = loginUser "ghost@x.com" "whatever" none cyDb :=
  c7_login_error_indistinguishable cyDb "ghost@x.com" "whatever" "cy@x.com" "wrongpw"
    none none cyUser (by decide) (by decide) (by decide)

/-- C8: every record returned by the list operation and by the single fetch
carries no secret-hash material: the projected password field is empty. -/
theorem c8_projections_exclude_secret (db : DB) (statusFilter : Option AppStatus)
    (page limit appId : Nat) :
    (∀ p ∈ getApplications statusFilter page limit db, p.password = none) ∧
    (∀ p, getApplicationById appId db = Except.ok p → p.password = none) := by
  constructor
  · intro p hp
    unfold getApplications at hp
    rcases List.mem_map.mp hp with ⟨a, _, rfl⟩
    rfl
  · intro p hp
    unfold getApplicationById at hp
    cases hfind : db.findAppById appId with
    | none => rw [hfind] at hp; cases hp
    | some a =>
      rw [hfind] at hp
      simp only [Except.ok.injEq] at hp
      rw [← hp]
      rfl

/-- Witness for C8: the projection of the stored pending application, once as
a member of the listed page and once as the single fetch. -/
theorem c8_witness :
    pendingApp.project.password = none ∧
    (Application.project { pendingApp with status := AppStatus.rejected }).password = none :=
  ⟨(c8_projections_exclude_secret pendingDb none 1 10 1).1 pendingApp.project (by decide),
   (c8_projections_exclude_secret
      { users := [], apps := [{ pendingApp with status := AppStatus.rejected }], nextId := 2 }
      none 1 10 1).2
      (Application.project { pendingApp with status := AppStatus.rejected }) (by decide)⟩

/-- C9 counterexample: the claim that the status update is a compare-and-set
succeeding only while the stored status is still pending, with InvalidState
returned on its failure, is false at this concrete interleaving, on the Reject
side and on the Approve side alike. Two Reject calls on application 1 of
pendingDb both pass the load-time guard while the status is pending; the first
commit stores the rejected document, and the second commit — executed against
a store whose status is already rejected — still succeeds with the success
confirmation and overwrites the first, instead of returning InvalidState.
Likewise for Approve: after a first full Approve has stored status approved,
the second interleaved Approve commit is not stopped by any status check — its
status update succeeds when the identity create does not raise, and when the
create does raise (the unique email index), the call fails with the create
failure, not with InvalidState. -/
theorem c9_counterexample :
    rejectLoad 1 pendingDb = Except.ok pendingApp ∧
    (rejectCommit pendingApp 7 21 (some "first") pendingDb).1
        = Except.ok "Application rejected successfully" ∧
    ((rejectCommit pendingApp 7 21 (some "first") pendingDb).2.findAppById 1).map
        Application.status = some AppStatus.rejected ∧
    (rejectCommit pendingApp 8 22 (some "second")
        ((rejectCommit pendingApp 7 21 (some "first") pendingDb).2)).1
        = Except.ok "Application rejected successfully" ∧
    ((rejectCommit pendingApp 8 22 (some "second")
        ((rejectCommit pendingApp 7 21 (some "first") pendingDb).2)).2.findAppById 1).map
        (fun a => a.rejectedBy) = some (some 8) ∧
    approveLoad 1 pendingDb = Except.ok pendingApp ∧
    ((approveApplication 1 7 21 true true pendingDb).db.findAppById 1).map
        Application.status = some AppStatus.approved ∧
    (approveCommit pendingApp 8 22 true (approveApplication 1 7 21 true true pendingDb).db).1
        = Except.ok ⟨3, "Bea", "bea@x.com", "instructor"⟩ ∧
    approveCommit pendingApp 8 22 false (approveApplication 1 7 21 true true pendingDb).db
        = (Except.error Err.createFailed, (approveApplication 1 7 21 true true pendingDb).db) := by
  decide

/-- C9 amended: within a single Approve or Reject call there is no
compare-and-set on status at the storage layer — the mutation phase is an
unconditional write-back that never consults the stored status, for Approve
and Reject alike. The only protection is the load-time guard: a second
Approve or Reject that loads the application after a first committed call
fails with InvalidState, in all four orderings. Interleaved, two Reject calls
that both load while the status is still pending both succeed, the second
silently overwriting the first; for two interleaved Approve calls the second
status save would equally succeed when the identity create does not raise,
and when the create does raise (the unique email index of the identity
store), the second call fails with the create failure, not with an
InvalidState from any status compare-and-set. -/
theorem c9_no_cas_guard_is_load_time_only (db : DB) (appId x y n1 n2 : Nat)
    (r1 r2 : Option String) (m1 m2 cOk2 : Bool) (a : Application)
    (hload : db.findAppById appId = some a) (hp : a.status = AppStatus.pending) :
    rejectLoad appId db = Except.ok a ∧
    approveLoad appId db = Except.ok a ∧
    (rejectCommit a x n1 r1 db).1 = Except.ok "Application rejected successfully" ∧
    (rejectCommit a y n2 r2 (rejectCommit a x n1 r1 db).2).1
        = Except.ok "Application rejected successfully" ∧
    ((rejectCommit a y n2 r2 (rejectCommit a x n1 r1 db).2).2.findAppById appId).map
        (fun d => d.rejectedBy) = some (some y) ∧
    ((approveApplication appId x n1 true m1 db).db.findAppById appId).map
        Application.status = some AppStatus.approved ∧
    (approveCommit a y n2 true (approveApplication appId x n1 true m1 db).db).1
        = Except.ok ⟨(approveApplication appId x n1 true m1 db).db.nextId, a.name, a.email,
            "instructor"⟩ ∧
    approveCommit a y n2 false (approveApplication appId x n1 true m1 db).db
        = (Except.error Err.createFailed, (approveApplication appId x n1 true m1 db).db) ∧
    (approveApplication appId y n2 cOk2 m2 (approveApplication appId x n1 true m1 db).db).result
        = Except.error (Err.invalidState "Application has already been processed") ∧
    (rejectApplication appId y n2 r2 m2 (approveApplication appId x n1 true m1 db).db).result
        = Except.error (Err.invalidState "Application has already been processed") ∧
    (approveApplication appId y n2 cOk2 m2 (rejectApplication appId x n1 r1 m1 db).db).result
        = Except.error (Err.invalidState "Application has already been processed") ∧
    (rejectApplication appId y n2 r2 m2 (rejectApplication appId x n1 r1 m1 db).db).result
        = Except.error (Err.invalidState "Application has already been processed") := by
  have hid : a.id = appId := findAppById_some_id db appId a hload
  have hmem : ∃ v ∈ db.apps, v.id = appId := exists_of_findAppById db appId a hload
  have hfA := approve_pending_find db appId x n1 m1 a hload hp
  have hfR := reject_pending_find db appId x n1 r1 m1 a hload hp
  refine ⟨?_, ?_, rfl, rfl, ?_, ?_, rfl, rfl, ?_, ?_, ?_, ?_⟩
  · unfold rejectLoad
    rw [hload]
    simp [hp]
  · unfold approveLoad
    rw [hload]
    simp [hp]
  · have hmem2 : ∃ v ∈ (db.updateApp (rejectedDoc a x n1 r1)).apps, v.id = appId :=
      exists_id_updateApp db (rejectedDoc a x n1 r1) appId hmem hid
    have hfind2 :
        ((db.updateApp (rejectedDoc a x n1 r1)).updateApp
            (rejectedDoc a y n2 r2)).findAppById appId = some (rejectedDoc a y n2 r2) :=
      findAppById_updateApp _ _ appId hmem2 hid
    show (((db.updateApp (rejectedDoc a x n1 r1)).updateApp
        (rejectedDoc a y n2 r2)).findAppById appId).map (fun d => d.rejectedBy) = some (some y)
    rw [hfind2]
    rfl
  · rw [hfA]
    rfl
  · rw [approve_not_pending_eq (approveApplication appId x n1 true m1 db).db appId y n2 cOk2 m2
      (approvedDoc a x n1) hfA (by simp [approvedDoc])]
  · rw [reject_not_pending_eq (approveApplication appId x n1 true m1 db).db appId y n2 r2 m2
      (approvedDoc a x n1) hfA (by simp [approvedDoc])]
  · rw [approve_not_pending_eq (rejectApplication appId x n1 r1 m1 db).db appId y n2 cOk2 m2
      (rejectedDoc a x n1 r1) hfR (by simp [rejectedDoc])]
  · rw [reject_not_pending_eq (rejectApplication appId x n1 r1 m1 db).db appId y n2 r2 m2
      (rejectedDoc a x n1 r1) hfR (by simp [rejectedDoc])]

/-- Witness for the amended C9 on the concrete pending store: both loads pass,
the second interleaved reject commit succeeds, the second approve commit with
the raising create fails with the create failure, and the approve-after-approve
and reject-after-reject sequential second calls fail with InvalidState. -/
theorem c9_witness :
    rejectLoad 1 pendingDb = Except.ok pendingApp ∧
    approveLoad 1 pendingDb = Except.ok pendingApp ∧
    (rejectCommit pendingApp 8 22 (some "second")
        ((rejectCommit pendingApp 7 21 (some "first") pendingDb).2)).1
        = Except.ok "Application rejected successfully" ∧
    approveCommit pendingApp 8 22 false (approveApplication 1 7 21 true true pendingDb).db
        = (Except.error Err.createFailed, (approveApplication 1 7 21 true true pendingDb).db) ∧
    (approveApplication 1 8 22 true true (approveApplication 1 7 21 true true pendingDb).db).result
        = Except.error (Err.invalidState "Application has already been processed") ∧
    (rejectApplication 1 8 22 (some "second") true
        (rejectApplication 1 7 21 (some "first") true pendingDb).db).result
        = Except.error (Err.invalidState "Application has already been processed") :=
  let H := c9_no_cas_guard_is_load_time_only pendingDb 1 7 8 21 22 (some "first")
    (some "second") true true true pendingApp (by decide) (by decide)
  ⟨H.1, H.2.1, H.2.2.2.1, H.2.2.2.2.2.2.2.1, H.2.2.2.2.2.2.2.2.1,
   H.2.2.2.2.2.2.2.2.2.2.2⟩

/-- C10: whenever ForgotSecret fails with DeliveryError, the rotation has
already been committed: the stored hash is the hash of the temporary secret,
the temporary flag is set, and a previously verifying secret distinct from the
temporary one no longer verifies against the stored hash. -/
theorem c10_forgot_secret_not_atomic (db : DB) (email temp old : String) (u : User)
    (hu : db.findUserByEmail email = some u)
    (hold : vaultVerify old u.password = true) (hne : old ≠ temp) :
    (forgotPassword email temp false db).1
        = Except.error (Err.deliveryError "Failed to send email. Please try again later.") ∧
    ∃ u1, (forgotPassword email temp false db).2.findUserById u.id = some u1 ∧
      u1.password = HashedSecret.hashed temp ∧
      u1.isTemporaryPassword = true ∧
      vaultVerify old u1.password = false := by
  refine ⟨?_, ?_⟩
  · unfold forgotPassword
    rw [hu]
    rfl
  · refine ⟨{ u with password := HashedSecret.hashed temp, isTemporaryPassword := true },
      ?_, rfl, rfl, ?_⟩
    · unfold forgotPassword
      rw [hu]
      dsimp only
      apply findUserById_updateUser
      · exact ⟨u, user_mem_of_findUserByEmail db email u hu, rfl⟩
      · rfl
    · unfold vaultVerify
      simp [hne]

/-- Witness for C10: the old secret of the stored identity stops verifying as
soon as the delivery-failing ForgotSecret returns. -/
theorem c10_witness :
    (forgotPassword "cy@x.com" "tmp99999" false cyDb).1
        = Except.error (Err.deliveryError "Failed to send email. Please try again later.") ∧
    ∃ u1, (forgotPassword "cy@x.com" "tmp99999" false cyDb).2.findUserById 3 = some u1 ∧
      u1.password = HashedSecret.hashed "tmp99999" ∧
      u1.isTemporaryPassword = true ∧
      vaultVerify "pw123456" u1.password = false :=
  c10_forgot_secret_not_atomic cyDb "cy@x.com" "tmp99999" "pw123456" cyUser
    (by decide) (by decide) (by decide)

end LMS
